import Mathlib

/-!
Verification of `iroh-net/src/hp/derp/http/mesh_clients.rs`: the mesh-client
manager (`MeshClients`), its address source (`MeshAddrs`), address resolution
inside `mesh()`, task spawning, and `shutdown()`.

Collaborator types that live elsewhere in the repository (`DerpMap`,
`ClientBuilder`, `Client`, `PacketForwarderHandler`) or in external crates
(`reqwest::Url`, `tokio::task::JoinSet`, `tokio_util::sync::CancellationToken`)
are embedded from the interface contracts the spec records for them; each such
definition says so in its doc comment. Everything in `mesh_clients.rs` itself
is translated directly.
-/

namespace MeshClientsModel

/-- Modelled from the spec: `reqwest::Url` (the `url` crate), reduced to its
components. The source only clones a URL and calls `set_path` on it, so the
model keeps each syntactic component as a separate field. -/
structure Url where
  scheme : String
  username : String
  password : Option String
  host : Option String
  port : Option Nat
  path : String
  query : Option String
  fragment : Option String
deriving DecidableEq, Repr

/-- Modelled from the spec: `Url::set_path` replaces the path component and
leaves every other component of the URL unchanged. -/
def Url.set_path (u : Url) (p : String) : Url :=
  { u with path := p }

/-- Modelled from the spec: a node of a `DerpMap` region; the source reads
only its `url` field (`node.url.clone()`). -/
structure DerpNode where
  url : Url
deriving DecidableEq, Repr

/-- Modelled from the spec: a `DerpMap` region, an iterable sequence of
nodes (`region.nodes.iter()`). -/
structure DerpRegion where
  nodes : List DerpNode
deriving DecidableEq, Repr

/-- Modelled from the spec: a `DerpMap`, a mapping from region id to region,
iterated in its native order (`derp_map.regions.iter()` yields
`(region_id, region)` pairs). -/
structure DerpMap where
  regions : List (Nat × DerpRegion)
deriving DecidableEq, Repr

/-- `MeshAddrs` from `mesh_clients.rs`: the two ways to express the mesh
network to join. -/
inductive MeshAddrs where
  | DerpMap (derp_map : DerpMap)
  | Addrs (urls : List Url)
deriving DecidableEq, Repr

/-- The address-resolution `match` at the top of `MeshClients::mesh`:
`Addrs(urls)` is returned as owned data unchanged; for `DerpMap(derp_map)`
the nested loops push, for every node of every region in order, the node's
URL with its path set to `"/derp"`. -/
def resolveAddrs : MeshAddrs → List Url
  | .Addrs urls => urls
  | .DerpMap derp_map =>
      (derp_map.regions.map fun rg => rg.2.nodes.map fun node =>
        Url.set_path node.url "/derp").flatten

/-- All nodes of a `DerpMap` in region-then-node iteration order. -/
def allNodes (derp_map : DerpMap) : List DerpNode :=
  (derp_map.regions.map fun rg => rg.2.nodes).flatten

/-- Modelled from the spec: `MeshKey`, a fixed-length (32-byte) shared secret.
The manager only stores it and passes it along, so the byte content is left
abstract as a list of bytes. -/
structure MeshKey where
  bytes : List Nat
deriving DecidableEq, Repr

/-- Modelled from the spec: `SecretKey`, the local relay's identity key. The
manager only clones it and hands it to `ClientBuilder::build`. -/
structure SecretKey where
  bytes : List Nat
deriving DecidableEq, Repr

/-- Modelled from the spec: `PacketForwarderHandler<Client>`, an opaque
clonable handle to the shared forwarding sink; `clone()` yields a handle to
the same underlying sink, modelled as equality of the handle value. -/
structure PacketForwarderHandler where
  sink_id : Nat
deriving DecidableEq, Repr

/-- `PacketForwarderHandler::clone`: another handle to the same sink. -/
def PacketForwarderHandler.clone (h : PacketForwarderHandler) :
    PacketForwarderHandler := h

/-- `SecretKey::clone`. -/
def SecretKey.clone (k : SecretKey) : SecretKey := k

/-- Modelled from the spec: `tokio_util::sync::CancellationToken`, an
idempotent "cancel requested" flag. -/
structure CancellationToken where
  is_cancelled : Bool
deriving DecidableEq, Repr

/-- Modelled from the spec: `CancellationToken::new` starts uncancelled. -/
def CancellationToken.new : CancellationToken := ⟨false⟩

/-- Modelled from the spec: `CancellationToken::cancel` puts the token in the
cancelled state. -/
def CancellationToken.cancel (_t : CancellationToken) : CancellationToken :=
  ⟨true⟩

/-- Modelled from the spec: the configuration a `derp::http::Client` carries
once built — exactly the data `MeshClients::mesh` feeds the builder: the mesh
key, the target server URL and the local secret key. -/
structure Client where
  mesh_key : Option MeshKey
  server_url : Url
  server_key : SecretKey
deriving DecidableEq, Repr

/-- Modelled from the spec: `derp::http::ClientBuilder` as configured by
`mesh()`: an optional mesh key and an optional server URL. -/
structure ClientBuilder where
  mesh_key : Option MeshKey
  server_url : Option Url
deriving DecidableEq, Repr

/-- Modelled from the spec: `ClientBuilder::new` with no fields set. -/
def ClientBuilder.new : ClientBuilder := ⟨none, none⟩

/-- `ClientBuilder::mesh_key` setter. -/
def ClientBuilder.with_mesh_key (b : ClientBuilder) (k : Option MeshKey) :
    ClientBuilder := { b with mesh_key := k }

/-- `ClientBuilder::server_url` setter. -/
def ClientBuilder.with_server_url (b : ClientBuilder) (u : Url) :
    ClientBuilder := { b with server_url := some u }

/-- Modelled from the spec: `ClientBuilder::build(key)` "will only fail if no
`server_url` is present"; with a URL present it always yields a client
carrying the configured data. -/
def ClientBuilder.build (b : ClientBuilder) (key : SecretKey) :
    Except String Client :=
  match b.server_url with
  | none => .error "server_url is required"
  | some u => .ok { mesh_key := b.mesh_key, server_url := u, server_key := key }

/-- The data captured by the closure `mesh()` hands to `tasks.spawn`: the
built client and the cloned forwarding-sink handle — nothing else is moved
into the spawned task. -/
structure TaskClosure where
  client : Client
  packet_forwarder_handler : PacketForwarderHandler
deriving DecidableEq, Repr

/-- `MeshClients` from `mesh_clients.rs`. The `JoinSet<()>` of spawned tasks
is modelled by the list of closures handed to `spawn`, in spawn order. -/
structure MeshClients where
  tasks : List TaskClosure
  mesh_key : MeshKey
  server_key : SecretKey
  mesh_addrs : MeshAddrs
  packet_fwd : PacketForwarderHandler
  cancel : CancellationToken
deriving DecidableEq, Repr

/-- `MeshClients::new`: empty task set, fresh cancellation token, stored
configuration. -/
def MeshClients.new (mesh_key : MeshKey) (server_key : SecretKey)
    (mesh_addrs : MeshAddrs) (packet_fwd : PacketForwarderHandler) :
    MeshClients :=
  { tasks := []
    cancel := CancellationToken.new
    mesh_key
    server_key
    mesh_addrs
    packet_fwd }

/-- The body of `mesh()`'s per-address loop, one step: build the client
(`expect` modelled as the error of the `Except`: an error aborts the whole
invocation), clone the forwarding handle, and spawn the task. -/
def meshLoop : MeshClients → List Url → Except String MeshClients
  | s, [] => .ok s
  | s, addr :: rest =>
    match (((ClientBuilder.new).with_mesh_key (some s.mesh_key)).with_server_url
        addr).build s.server_key.clone with
    | .error e => .error e
    | .ok client =>
        meshLoop
          { s with tasks := s.tasks ++
              [{ client := client,
                 packet_forwarder_handler := s.packet_fwd.clone }] }
          rest

/-- `MeshClients::mesh`: resolve the addresses from `mesh_addrs`, then run the
spawn loop. A `.error` result models the `expect` panic aborting the
invocation; `.ok` models a normal return of `()` with the updated state. -/
def MeshClients.mesh (s : MeshClients) : Except String MeshClients :=
  meshLoop s (resolveAddrs s.mesh_addrs)

/-- The body of one spawned task, as a function of the outcome
`client.run_mesh_client(...)` eventually produces: an `Err(e)` is consumed by
`tracing::warn!` (modelled as the list of emitted warning messages) and the
task returns `()` either way. -/
def runMeshTask (outcome : Except String Unit) : List String × Unit :=
  match outcome with
  | .ok _ => ([], ())
  | .error e => ([e], ())

/-- `MeshClients::shutdown`: cancel the token, then `JoinSet::shutdown`
(modelled from the spec: aborts every remaining task and waits for all of
them to finish, leaving the task set empty). The manager is consumed; the
returned record is its final observable state. -/
def MeshClients.shutdown (s : MeshClients) : MeshClients :=
  { s with cancel := s.cancel.cancel, tasks := [] }

/-- The task closure `mesh()` spawns for one resolved address: the client
built from the manager's mesh key, the address, and a clone of the server
key, plus a clone of the forwarding-sink handle. -/
def spawnedTask (s : MeshClients) (addr : Url) : TaskClosure :=
  { client :=
      { mesh_key := some s.mesh_key, server_url := addr,
        server_key := s.server_key }
    packet_forwarder_handler := s.packet_fwd }

/-- The state `mesh()` leaves behind when it returns normally: the task set
grown by one spawned task per resolved address, everything else unchanged. -/
def meshResult (s : MeshClients) : MeshClients :=
  { s with tasks := s.tasks ++ (resolveAddrs s.mesh_addrs).map (spawnedTask s) }

lemma meshLoop_eq (urls : List Url) (s : MeshClients) :
    meshLoop s urls
      = Except.ok { s with tasks := s.tasks ++ urls.map (spawnedTask s) } := by
  induction urls generalizing s with
  | nil => simp [meshLoop]
  | cons a rest ih =>
      simp [meshLoop, ClientBuilder.new, ClientBuilder.with_mesh_key,
        ClientBuilder.with_server_url, ClientBuilder.build, SecretKey.clone,
        PacketForwarderHandler.clone, ih, spawnedTask]

lemma mesh_eq (s : MeshClients) : s.mesh = Except.ok (meshResult s) :=
  meshLoop_eq _ _

lemma resolveAddrs_derp_map (dm : DerpMap) :
    resolveAddrs (MeshAddrs.DerpMap dm)
      = (allNodes dm).map fun node => Url.set_path node.url "/derp" := by
  simp [resolveAddrs, allNodes, List.map_flatten, List.map_map]
  rfl

lemma get_map_of_eq {α β : Type} (l : List α) (l' : List β) (f : α → β)
    (h : l' = l.map f) (i : Nat) (hi : i < l.length) (hj : i < l'.length) :
    l'.get ⟨i, hj⟩ = f (l.get ⟨i, hi⟩) := by
  subst h
  simp [List.getElem_map]

/-- A sample node URL exercising every URL component. -/
def sampleNodeUrl : Url :=
  { scheme := "https", username := "u", password := some "pw",
    host := some "derp.example", port := some 443, path := "/old",
    query := some "a=b", fragment := some "frag" }

/-- A sample topology map with one region holding one node. -/
def sampleDerpMap : DerpMap := ⟨[(1, ⟨[⟨sampleNodeUrl⟩]⟩)]⟩

/-- A sample explicit address. -/
def sampleUrl : Url :=
  { scheme := "http", username := "", password := none,
    host := some "127.0.0.1", port := some 3340, path := "/derp",
    query := none, fragment := none }

/-- A sample manager over one explicit address. -/
def sampleState : MeshClients :=
  MeshClients.new ⟨[1]⟩ ⟨[2]⟩ (MeshAddrs.Addrs [sampleUrl]) ⟨0⟩

/-- A sample manager whose address source is empty. -/
def sampleEmptyState : MeshClients :=
  MeshClients.new ⟨[1]⟩ ⟨[2]⟩ (MeshAddrs.Addrs []) ⟨0⟩

/-- `sampleState` with its cancellation token already cancelled. -/
def sampleStateCancelled : MeshClients := { sampleState with cancel := ⟨true⟩ }

/-- C1: resolving a `DerpMap` source yields exactly one endpoint per node,
so the count is the sum over regions of their node counts; the `i`-th
endpoint in region-then-node order is the `i`-th node's URL with only the
path replaced by `"/derp"`, its scheme, host and port unchanged. -/
theorem derp_map_resolution (dm : DerpMap) (i : Nat)
    (hi : i < (allNodes dm).length)
    (hj : i < (resolveAddrs (MeshAddrs.DerpMap dm)).length) :
    (resolveAddrs (MeshAddrs.DerpMap dm)).length
        = (dm.regions.map fun rg => rg.2.nodes.length).sum
    ∧ (resolveAddrs (MeshAddrs.DerpMap dm)).get ⟨i, hj⟩
        = Url.set_path ((allNodes dm).get ⟨i, hi⟩).url "/derp"
    ∧ ((resolveAddrs (MeshAddrs.DerpMap dm)).get ⟨i, hj⟩).scheme
        = ((allNodes dm).get ⟨i, hi⟩).url.scheme
    ∧ ((resolveAddrs (MeshAddrs.DerpMap dm)).get ⟨i, hj⟩).host
        = ((allNodes dm).get ⟨i, hi⟩).url.host
    ∧ ((resolveAddrs (MeshAddrs.DerpMap dm)).get ⟨i, hj⟩).port
        = ((allNodes dm).get ⟨i, hi⟩).url.port
    ∧ ((resolveAddrs (MeshAddrs.DerpMap dm)).get ⟨i, hj⟩).path = "/derp" := by
  have hget := get_map_of_eq (allNodes dm) _ _ (resolveAddrs_derp_map dm) i hi hj
  refine ⟨?_, hget, ?_, ?_, ?_, ?_⟩
  · rw [resolveAddrs_derp_map dm]
    simp [allNodes, List.length_flatten, List.map_map, Function.comp_def,
      List.length_map]
  all_goals rw [hget] ; simp [Url.set_path]

/-- C1 witness at `sampleDerpMap`, index 0. -/
theorem derp_map_resolution_witness :
    ((resolveAddrs (MeshAddrs.DerpMap sampleDerpMap)).get ⟨0, by decide⟩).path
      = "/derp" :=
  (derp_map_resolution sampleDerpMap 0 (by decide) (by decide)).2.2.2.2.2

/-- C2: resolving an explicit address list is the identity: the very list is
returned, order and duplicates included, with no validation or rewriting. -/
theorem addrs_passthrough (urls : List Url) :
    resolveAddrs (MeshAddrs.Addrs urls) = urls := rfl

/-- C3: address resolution is total (it is a plain function of the source);
an empty explicit list and a topology map with no nodes both resolve to `[]`,
and in that case `mesh()` returns normally with the manager unchanged — no
task is spawned. -/
theorem resolution_total_empty_noop (s : MeshClients)
    (h : resolveAddrs s.mesh_addrs = []) :
    resolveAddrs (MeshAddrs.Addrs []) = []
    ∧ (∀ dm : DerpMap, (∀ rg, rg ∈ dm.regions → rg.2.nodes = []) →
        resolveAddrs (MeshAddrs.DerpMap dm) = [])
    ∧ s.mesh = Except.ok s := by
  refine ⟨rfl, ?_, ?_⟩
  · intro dm hdm
    simp only [resolveAddrs, List.flatten_eq_nil_iff, List.mem_map]
    rintro _ ⟨rg, hrg, rfl⟩
    simp [hdm rg hrg]
  · rw [mesh_eq s]
    simp [meshResult, h]

/-- C3 witness at `sampleEmptyState`. -/
theorem resolution_total_empty_noop_witness :
    sampleEmptyState.mesh = Except.ok sampleEmptyState :=
  (resolution_total_empty_noop sampleEmptyState rfl).2.2

/-- C10: the `"/derp"` path rewrite also leaves the query, fragment,
username and password of the node URL unchanged in the derived endpoint. -/
theorem derp_map_preserves_other_components (dm : DerpMap) (i : Nat)
    (hi : i < (allNodes dm).length)
    (hj : i < (resolveAddrs (MeshAddrs.DerpMap dm)).length) :
    ((resolveAddrs (MeshAddrs.DerpMap dm)).get ⟨i, hj⟩).query
        = ((allNodes dm).get ⟨i, hi⟩).url.query
    ∧ ((resolveAddrs (MeshAddrs.DerpMap dm)).get ⟨i, hj⟩).fragment
        = ((allNodes dm).get ⟨i, hi⟩).url.fragment
    ∧ ((resolveAddrs (MeshAddrs.DerpMap dm)).get ⟨i, hj⟩).username
        = ((allNodes dm).get ⟨i, hi⟩).url.username
    ∧ ((resolveAddrs (MeshAddrs.DerpMap dm)).get ⟨i, hj⟩).password
        = ((allNodes dm).get ⟨i, hi⟩).url.password := by
  have hget := get_map_of_eq (allNodes dm) _ _ (resolveAddrs_derp_map dm) i hi hj
  refine ⟨?_, ?_, ?_, ?_⟩
  all_goals rw [hget] ; simp [Url.set_path]

/-- C10 witness at `sampleDerpMap` (whose node URL has a query, fragment,
username and password), index 0. -/
theorem derp_map_preserves_other_components_witness :
    ((resolveAddrs (MeshAddrs.DerpMap sampleDerpMap)).get ⟨0, by decide⟩).query
      = ((allNodes sampleDerpMap).get ⟨0, by decide⟩).url.query :=
  (derp_map_preserves_other_components sampleDerpMap 0 (by decide)
    (by decide)).1

/-- C4: in `mesh()` the builder is always given a server URL before `build`,
so `build` always succeeds there and the `expect` branch is unreachable:
`mesh()` always returns normally. The only failure `build` has is the absence
of a server URL, and in the model that failure is an `Except.error` that
aborts the whole `mesh()` invocation rather than being skipped per-endpoint. -/
theorem build_expect_unreachable :
    (∀ (b : ClientBuilder) (k : SecretKey), b.server_url = none →
        ClientBuilder.build b k = Except.error "server_url is required")
    ∧ (∀ (s : MeshClients) (addr : Url),
        (((ClientBuilder.new).with_mesh_key
              (some s.mesh_key)).with_server_url addr).build s.server_key.clone
          = Except.ok
              { mesh_key := some s.mesh_key, server_url := addr,
                server_key := s.server_key })
    ∧ (∀ s : MeshClients, s.mesh = Except.ok (meshResult s)) := by
  refine ⟨?_, ?_, ?_⟩
  · intro b k hb
    simp [ClientBuilder.build, hb]
  · intro s addr
    rfl
  · intro s
    exact mesh_eq s

/-- C4 witness: a builder with no server URL makes `build` fail. -/
theorem build_expect_unreachable_witness :
    ClientBuilder.build ClientBuilder.new ⟨[2]⟩
      = Except.error "server_url is required" :=
  build_expect_unreachable.1 ClientBuilder.new ⟨[2]⟩ rfl

/-- C5: `mesh()` surfaces no error: it always returns normally, and a
spawned task's runtime failure is consumed inside the task — it is emitted
only as a warning message and the task still returns `()`. -/
theorem mesh_errors_isolated (s : MeshClients) (e : String) :
    s.mesh = Except.ok (meshResult s)
    ∧ runMeshTask (Except.error e) = ([e], ())
    ∧ runMeshTask (Except.ok ()) = ([], ()) :=
  ⟨mesh_eq s, rfl, rfl⟩

/-- C6: two consecutive `mesh()` calls spawn N + M tasks in total, where N
and M are the address counts the two calls resolve; nothing is
deduplicated. -/
theorem remesh_spawns_sum (s s1 s2 : MeshClients)
    (h1 : s.mesh = Except.ok s1) (h2 : s1.mesh = Except.ok s2) :
    s2.tasks.length
      = s.tasks.length + ((resolveAddrs s.mesh_addrs).length
        + (resolveAddrs s1.mesh_addrs).length) := by
  rw [mesh_eq] at h1 h2
  injection h1 with h1
  injection h2 with h2
  subst h1
  subst h2
  simp [meshResult, List.length_append, List.length_map, Nat.add_assoc]

/-- C6 witness: meshing `sampleState` twice yields 0 + (1 + 1) tasks. -/
theorem remesh_spawns_sum_witness :
    (meshResult (meshResult sampleState)).tasks.length
      = sampleState.tasks.length
        + ((resolveAddrs sampleState.mesh_addrs).length
          + (resolveAddrs (meshResult sampleState).mesh_addrs).length) :=
  remesh_spawns_sum sampleState (meshResult sampleState)
    (meshResult (meshResult sampleState)) (mesh_eq sampleState)
    (mesh_eq (meshResult sampleState))

/-- C7: when `shutdown()` returns, the cancellation token is cancelled and
the task set is empty (every task has been aborted and joined), from any
state — in particular from a freshly constructed manager. -/
theorem shutdown_terminates_all (s : MeshClients) :
    (s.shutdown).cancel.is_cancelled = true
    ∧ (s.shutdown).tasks = []
    ∧ ∀ (mk : MeshKey) (sk : SecretKey) (ma : MeshAddrs)
        (pf : PacketForwarderHandler),
        ((MeshClients.new mk sk ma pf).shutdown).cancel.is_cancelled = true
        ∧ ((MeshClients.new mk sk ma pf).shutdown).tasks = [] :=
  ⟨rfl, rfl, fun _ _ _ _ => ⟨rfl, rfl⟩⟩

/-- C8 counterexample: the token is not handed to the spawned tasks. Two
managers identical except for the state of their cancellation token spawn
exactly the same tasks, so a task cannot observe the token: the closure
passed to `spawn` captures only the built client and the forwarding-sink
handle. -/
theorem mesh_ignores_cancel_token :
    sampleState.cancel ≠ sampleStateCancelled.cancel
    ∧ (sampleState.mesh).map MeshClients.tasks
        = (sampleStateCancelled.mesh).map MeshClients.tasks :=
  ⟨by decide, rfl⟩

/-- C8 amended: `shutdown()` does put the shared token into the cancelled
state, but `mesh()` never passes the token to the tasks it spawns — the
spawned work is independent of the token, for every state of the token. -/
theorem cancel_not_passed_to_tasks (s : MeshClients)
    (t t' : CancellationToken) :
    (MeshClients.mesh { s with cancel := t }).map MeshClients.tasks
      = (MeshClients.mesh { s with cancel := t' }).map MeshClients.tasks
    ∧ (MeshClients.shutdown
        { s with cancel := t }).cancel.is_cancelled = true := by
  constructor
  · rw [mesh_eq, mesh_eq]
    rfl
  · rfl

/-- C9: `mesh()` changes only the task set: every other field of the
manager is unchanged, and the task set grows by exactly the number of
resolved endpoints. -/
theorem mesh_frame (s s' : MeshClients) (h : s.mesh = Except.ok s') :
    s'.mesh_key = s.mesh_key
    ∧ s'.server_key = s.server_key
    ∧ s'.mesh_addrs = s.mesh_addrs
    ∧ s'.packet_fwd = s.packet_fwd
    ∧ s'.cancel = s.cancel
    ∧ s'.tasks.length
        = s.tasks.length + (resolveAddrs s.mesh_addrs).length := by
  rw [mesh_eq] at h
  injection h with h
  subst h
  exact ⟨rfl, rfl, rfl, rfl, rfl, by
    simp [meshResult, List.length_append, List.length_map]⟩

/-- C9 witness at `sampleState`. -/
theorem mesh_frame_witness :
    (meshResult sampleState).mesh_key = sampleState.mesh_key
    ∧ (meshResult sampleState).server_key = sampleState.server_key
    ∧ (meshResult sampleState).mesh_addrs = sampleState.mesh_addrs
    ∧ (meshResult sampleState).packet_fwd = sampleState.packet_fwd
    ∧ (meshResult sampleState).cancel = sampleState.cancel
    ∧ (meshResult sampleState).tasks.length
        = sampleState.tasks.length
          + (resolveAddrs sampleState.mesh_addrs).length :=
  mesh_frame sampleState (meshResult sampleState) (mesh_eq sampleState)

end MeshClientsModel
